import Mathlib

/-!
Verification of the Availability Resolution & UI Reconciliation Engine of the
`enhancedchat` embedded widget.  The JavaScript control logic is embedded
shallowly: module-level mutable flags become fields of an explicit state
record, each event listener becomes a state-transition function, and the
nested-timer probe chain becomes a fuel-indexed recursive function that also
records every invocation of the external probe capability together with its
firing time (milliseconds since scheduler start) and the resolved-state value
observed at the moment of the call.
-/

namespace EnhancedChat

/-- A JavaScript runtime value, as far as the availability logic inspects one:
`typeof value !== 'boolean'` is the only type test performed, so we keep one
constructor per relevant `typeof` class.  `undef` models `undefined` (also the
result of optional chaining on a missing field), `nullv` models `null`. -/
inductive JSValue where
  | undef
  | nullv
  | bool (b : Bool)
  | str (s : String)
  | num (n : Int)
  | obj
deriving DecidableEq

/-- `typeof value === 'boolean'`. -/
def JSValue.isBoolean : JSValue → Bool
  | .bool _ => true
  | _ => false

/-- The detection-source tags stored in `businessHoursSource`
(`UNDEFINED_BUSINESS_HOURS_FIX.md`, "Source Tracking"): `'event'` is the
generic snapshot push, `'hours_started_event'`/`'hours_ended_event'` are the
explicit transitions, `'api'` is the pull-style probe, `'default_fallback'`
the fail-open default. -/
inductive Source where
  | event
  | hours_started_event
  | hours_ended_event
  | api
  | default_fallback
deriving DecidableEq

/-- The module-level mutable flags of `index.html`, gathered into one record:
`businessHoursValue`/`businessHoursSource` (UNDEFINED_BUSINESS_HOURS_FIX.md
lines 482-483), `isWithinBusinessHours` and `noAgentsAvailable`
(SESSION_SUMMARY_2025-11-02.md lines 1131-1132), and `sessionWaitingStartTime`
read by the waiting-timeout pattern (SESSION_SUMMARY line 1056), kept as an
`Option` so that "no waiting epoch recorded" is explicit. -/
structure ResolverState where
  businessHoursValue : Option Bool
  businessHoursSource : Option Source
  isWithinBusinessHours : Bool
  noAgentsAvailable : Bool
  sessionWaitingStartTime : Option Nat
deriving DecidableEq

/-- Initial values of the flags: `businessHoursValue = null`,
`businessHoursSource = null`, `let isWithinBusinessHours = true`,
`let noAgentsAvailable = false`, no waiting epoch. -/
def initialResolverState : ResolverState :=
  { businessHoursValue := none
    businessHoursSource := none
    isWithinBusinessHours := true
    noAgentsAvailable := false
    sessionWaitingStartTime := none }

/-- `setBusinessHours(value, source)` (UNDEFINED_BUSINESS_HOURS_FIX.md lines
490-501): rejects any value with `typeof value !== 'boolean'` by returning
`false` and leaving all state untouched; a strict boolean overwrites
`businessHoursValue`, `businessHoursSource` and `isWithinBusinessHours`
unconditionally and returns `true`.  The `updateChatAvailability(source)`
side effect is a pure render request and is modelled separately by
`renderOf`. -/
def setBusinessHours (value : JSValue) (source : Source) (st : ResolverState) :
    Bool × ResolverState :=
  match value with
  | .bool b =>
      (true,
       { st with
          businessHoursValue := some b
          businessHoursSource := some source
          isWithinBusinessHours := b })
  | _ => (false, st)

/-- The `onEmbeddedMessagingWithinBusinessHours` listener
(UNDEFINED_BUSINESS_HOURS_FIX.md lines 514-522): extracts
`event.detail?.withinBusinessHours` (the argument here is that extracted
value, `undef` when the field is missing) and forwards it with source
`'event'`; the boolean success result only selects a log line. -/
def onWithinBusinessHours (detailValue : JSValue) (st : ResolverState) :
    ResolverState :=
  (setBusinessHours detailValue Source.event st).2

/-- The `onEmbeddedMessagingBusinessHoursStarted` listener
(UNDEFINED_BUSINESS_HOURS_FIX.md lines 531-533). -/
def onBusinessHoursStarted (st : ResolverState) : ResolverState :=
  (setBusinessHours (JSValue.bool true) Source.hours_started_event st).2

/-- The `onEmbeddedMessagingBusinessHoursEnded` listener
(UNDEFINED_BUSINESS_HOURS_FIX.md lines 535-537). -/
def onBusinessHoursEnded (st : ResolverState) : ResolverState :=
  (setBusinessHours (JSValue.bool false) Source.hours_ended_event st).2

/-- The pair of affordance-toggle requests issued by one call of
`updateChatAvailability`: `chatShown = true` means `showChatButton()` was
requested (and `hideChatButton()` otherwise), `offlineShown = true` means
`showOfflineForm()` was requested (and `hideOfflineForm()` otherwise). -/
structure RenderCalls where
  chatShown : Bool
  offlineShown : Bool
deriving DecidableEq

/-- `updateChatAvailability` (SESSION_SUMMARY_2025-11-02.md lines 1138-1153):
`if (isWithinBusinessHours && !noAgentsAvailable) { showChatButton();
hideOfflineForm(); } else { hideChatButton(); showOfflineForm(); }`. -/
def updateChatAvailability (isWithinBusinessHours noAgentsAvailable : Bool) :
    RenderCalls :=
  if isWithinBusinessHours && !noAgentsAvailable then
    { chatShown := true, offlineShown := false }
  else
    { chatShown := false, offlineShown := true }

/-- The render request issued from a given state. -/
def renderOf (st : ResolverState) : RenderCalls :=
  updateChatAvailability st.isWithinBusinessHours st.noAgentsAvailable

/-- The `onEmbeddedMessagingButtonCreated` listener (src/unnamed/part_000
lines 70-78): as soon as the button exists it calls
`updateChatAvailability('button_created')` on the current flags. -/
def onButtonCreated (st : ResolverState) : RenderCalls :=
  renderOf st

/-- Outcome of one invocation of the fallible external probe capability
`embeddedservice_bootstrap.utilAPI?.isWithinBusinessHours?.()`: either a
returned value or a thrown exception. -/
inductive ApiOutcome where
  | value (v : JSValue)
  | exn
deriving DecidableEq

/-- Whether the probe invocation produced a strict boolean (the only outcome
`setBusinessHours(apiValue, 'api')` accepts). -/
def ApiOutcome.isBooleanResult : ApiOutcome → Bool
  | .value v => v.isBoolean
  | .exn => false

/-- One recorded invocation of the probe capability: `attempt` is the value of
`attemptCount` after its increment (so 1-based), `time` is milliseconds since
the `onEmbeddedMessagingReady` scheduler start, and `resolvedAtCall` is the
value of `businessHoursValue` observed at the moment the capability was
invoked. -/
structure ProbeCall where
  attempt : Nat
  time : Nat
  resolvedAtCall : Option Bool
deriving DecidableEq

/-- `const delays = [1000, 2000, 3000, 4000, 5000]`
(API_POLLING_ENHANCEMENT.md line 47). -/
def delays : List Nat := [1000, 2000, 3000, 4000, 5000]

/-- `const maxAttempts = 5` (API_POLLING_ENHANCEMENT.md line 46). -/
def maxAttempts : Nat := 5

/-- A push Signal delivered by some other listener while the scheduler is
waiting for its `k`-th timer to fire (the system is single-threaded, so pushes
interleave only between timer callbacks).  A delivered `(value, source)` pair
is processed by the corresponding handler, i.e. through `setBusinessHours`. -/
def applyPush (push : Nat → Option (JSValue × Source)) (k : Nat)
    (st : ResolverState) : ResolverState :=
  match push k with
  | some (v, src) => (setBusinessHours v src st).2
  | none => st

/-- `tryApiCheck` (API_POLLING_ENHANCEMENT.md lines 49-84), as the whole timer
chain: the fuel argument only bounds the recursion (the chain is entered with
fuel `maxAttempts` and recurses exactly when `attemptCount < maxAttempts`, so
the fuel never runs out); `attemptCount` and `now` are the closure counter and
the wall-clock of the firing.  Each firing first lets any interleaved push
Signal run, then re-checks `businessHoursValue !== null` and exits the chain
if set; otherwise it increments `attemptCount`, invokes the probe capability
(recorded in the call list), and on a strict boolean result stops via
`setBusinessHours(apiValue, 'api')`; a thrown exception is swallowed by the
`catch` and a non-boolean falls through, scheduling the next firing after
`delays[attemptCount]` when attempts remain and otherwise resolving the
fail-open default `setBusinessHours(true, 'default_fallback')`. -/
def tryApiCheck (api : Nat → ApiOutcome) (push : Nat → Option (JSValue × Source)) :
    Nat → Nat → Nat → ResolverState → ResolverState × List ProbeCall
  | 0, _, _, st0 => (st0, [])
  | fuel + 1, attemptCount, now, st0 =>
    let st := applyPush push (attemptCount + 1) st0
    if st.businessHoursValue = none then
      let ac := attemptCount + 1
      let call : ProbeCall := ⟨ac, now, st.businessHoursValue⟩
      match api ac with
      | .value v =>
        let res := setBusinessHours v Source.api st
        if res.1 then (res.2, [call])
        else if ac < maxAttempts then
          let r := tryApiCheck api push fuel ac (now + delays.getD ac 0) res.2
          (r.1, call :: r.2)
        else
          ((setBusinessHours (JSValue.bool true) Source.default_fallback res.2).2, [call])
      | .exn =>
        if ac < maxAttempts then
          let r := tryApiCheck api push fuel ac (now + delays.getD ac 0) st
          (r.1, call :: r.2)
        else
          ((setBusinessHours (JSValue.bool true) Source.default_fallback st).2, [call])
    else (st, [])

/-- The two `onEmbeddedMessagingReady` listeners: the reset
`noAgentsAvailable = false` (SESSION_SUMMARY_2025-11-02.md lines 1160-1163)
and the polling starter (API_POLLING_ENHANCEMENT.md lines 41-88), which
returns immediately when `businessHoursValue !== null` and otherwise arms the
first timer with `setTimeout(tryApiCheck, delays[0])`.  Returns the final
state together with the recorded probe invocations. -/
def onMessagingReady (api : Nat → ApiOutcome)
    (push : Nat → Option (JSValue × Source)) (st : ResolverState) :
    ResolverState × List ProbeCall :=
  let st := { st with noAgentsAvailable := false }
  if st.businessHoursValue = none then
    tryApiCheck api push maxAttempts 0 (delays.getD 0 0) st
  else (st, [])

/-- The `routingResult` substructure of a session-status event
(SESSION_SUMMARY_2025-11-02.md lines 1044-1050): only the `agentsAvailable`
and `success` fields are inspected, each with `=== false`. -/
structure RoutingResult where
  agentsAvailable : JSValue
  success : JSValue
deriving DecidableEq

/-- `event.detail` of `onEmbeddedMessagingSessionStatusUpdate`
(SESSION_SUMMARY_2025-11-02.md lines 1241-1253): `status` string, optional
`reason` string, optional `routingResult`, and `agentInfo` whose only use is
the truthiness test `!event.detail.agentInfo`, so it is kept as presence. -/
structure SessionDetail where
  status : String
  reason : Option String
  routingResult : Option RoutingResult
  agentInfo : Option Unit
deriving DecidableEq

/-- The `onEmbeddedMessagingSessionStatusUpdate` detection logic, i.e. the
four demotion patterns (SESSION_SUMMARY_2025-11-02.md lines 1034-1070) and the
`Active` reset (lines 1165-1168), applied in the order they are documented:
explicit `reason === 'NoAgentsAvailable'` on `Ended`; a `routingResult`
reporting `agentsAvailable === false` or `success === false` on `Ended`; a
`Waiting` status observed more than 60000 ms after `sessionWaitingStartTime`
(`Date.now()` is the `now` argument; with no recorded epoch the wait time is
0 and the heuristic does not match); `Ended` without a truthy `agentInfo`;
finally `status === 'Active'` clears `noAgentsAvailable`. -/
def handleSessionStatus (now : Nat) (d : SessionDetail) (st : ResolverState) :
    ResolverState :=
  let st1 :=
    if d.status = "Ended" ∧ d.reason = some "NoAgentsAvailable" then
      { st with noAgentsAvailable := true }
    else st
  let st2 :=
    match d.routingResult with
    | some rr =>
        if d.status = "Ended" ∧
            (rr.agentsAvailable = JSValue.bool false ∨ rr.success = JSValue.bool false) then
          { st1 with noAgentsAvailable := true }
        else st1
    | none => st1
  let st3 :=
    if d.status = "Waiting" ∧ now - st2.sessionWaitingStartTime.getD now > 60000 then
      { st2 with noAgentsAvailable := true }
    else st2
  let st4 :=
    if d.status = "Ended" ∧ d.agentInfo = none then
      { st3 with noAgentsAvailable := true }
    else st3
  if d.status = "Active" then { st4 with noAgentsAvailable := false } else st4

/-- Modelled from the spec: the assignment of `sessionWaitingStartTime` is not
among the sources (only its read in the waiting-timeout pattern is); spec §5
says the 60-second threshold is "a soft timeout evaluated against signal
timestamps".  Accordingly the epoch starts at the first `Waiting` signal and
is discarded when a signal reports any other status. -/
def trackWaitingEpoch (now : Nat) (d : SessionDetail) (st : ResolverState) :
    ResolverState :=
  if d.status = "Waiting" then
    { st with sessionWaitingStartTime := some (st.sessionWaitingStartTime.getD now) }
  else
    { st with sessionWaitingStartTime := none }

/-- One full `onEmbeddedMessagingSessionStatusUpdate` firing: detection
patterns from the source, then the spec-modelled waiting-epoch bookkeeping. -/
def onSessionStatusUpdate (now : Nat) (d : SessionDetail) (st : ResolverState) :
    ResolverState :=
  trackWaitingEpoch now d (handleSessionStatus now d st)

/-- The host environment seen by the affordance-toggle wrappers
(src/unnamed/part_000): whether the global `embeddedservice_bootstrap` is
defined, and whether the chat button has been created — per the source,
`embeddedservice_bootstrap.utilAPI` exists (is truthy) exactly once
`onEmbeddedMessagingButtonCreated` has fired and the underlying widget button
element is in the DOM. -/
structure HostEnv where
  bootstrapDefined : Bool
  buttonCreated : Bool
deriving DecidableEq

/-- Result of one `showChatButton()` wrapper call: the Salesforce toggle was
invoked, or the guard failed and only a console warning was emitted. -/
inductive ShowChatResult where
  | shown
  | warned
deriving DecidableEq

/-- The raw external call `embeddedservice_bootstrap.utilAPI.showChatButton()`:
fallible — it requires the button DOM element to exist first and fails when
the widget element does not yet exist (src/unnamed/part_000, "Key
Insights"). -/
def utilShowChatButton (env : HostEnv) : Except String Unit :=
  if env.buttonCreated then Except.ok ()
  else Except.error "button element does not exist"

/-- `showChatButton()` (src/unnamed/part_000 lines 56-65): guards on
`typeof embeddedservice_bootstrap !== 'undefined' &&
embeddedservice_bootstrap.utilAPI` before issuing the raw toggle call (an
error from the raw call would propagate — there is no try/catch — but the
guard makes the call only when it is safe); when the guard fails it logs a
warning and returns without toggling. -/
def showChatButton (env : HostEnv) : Except String ShowChatResult :=
  if env.bootstrapDefined && env.buttonCreated then
    match utilShowChatButton env with
    | .ok _ => Except.ok ShowChatResult.shown
    | .error e => Except.error e
  else
    Except.ok ShowChatResult.warned

/-- The external stimuli that drive the engine. -/
inductive Event where
  | withinBusinessHours (detailValue : JSValue)
  | hoursStarted
  | hoursEnded
  | messagingReady (api : Nat → ApiOutcome) (push : Nat → Option (JSValue × Source))
  | sessionStatus (now : Nat) (d : SessionDetail)

/-- Dispatch one external stimulus to its listener. -/
def step (st : ResolverState) : Event → ResolverState
  | .withinBusinessHours v => onWithinBusinessHours v st
  | .hoursStarted => onBusinessHoursStarted st
  | .hoursEnded => onBusinessHoursEnded st
  | .messagingReady api push => (onMessagingReady api push st).1
  | .sessionStatus now d => onSessionStatusUpdate now d st

/-- The state reached from page load after an arbitrary sequence of external
stimuli: the reachable states of the engine. -/
def runEvents (evs : List Event) : ResolverState :=
  evs.foldl step initialResolverState

/-- The full probe firing plan: attempts 1..5 at cumulative delays 1000, 3000,
6000, 10000, 15000 ms, each made while `businessHoursValue` is still `none`. -/
def probeSchedule : List ProbeCall :=
  [⟨1, 1000, none⟩, ⟨2, 3000, none⟩, ⟨3, 6000, none⟩, ⟨4, 10000, none⟩,
   ⟨5, 15000, none⟩]

/-- The firing plan of a chain entered with the given fuel, attempt counter
and clock: used to reason about `tryApiCheck` by induction. -/
def scheduleFrom : Nat → Nat → Nat → List ProbeCall
  | 0, _, _ => []
  | fuel + 1, ac, now =>
      ⟨ac + 1, now, none⟩ :: scheduleFrom fuel (ac + 1) (now + delays.getD (ac + 1) 0)

theorem setBusinessHours_not_boolean (v : JSValue) (src : Source)
    (st : ResolverState) (h : v.isBoolean = false) :
    setBusinessHours v src st = (false, st) := by
  cases v <;> first | rfl | simp [JSValue.isBoolean] at h

/-- The latch couples the mirror flag to the resolved value: whenever
`businessHoursValue` is set the mirror `isWithinBusinessHours` equals it, and
while it is unset the mirror still holds its initial default `true`. -/
def Coupled (st : ResolverState) : Prop :=
  st.isWithinBusinessHours = st.businessHoursValue.getD true

theorem coupled_setBusinessHours (v : JSValue) (src : Source)
    (st : ResolverState) (h : Coupled st) :
    Coupled (setBusinessHours v src st).2 := by
  cases v <;> first | exact h | rfl

theorem coupled_applyPush (push : Nat → Option (JSValue × Source)) (k : Nat)
    (st : ResolverState) (h : Coupled st) : Coupled (applyPush push k st) := by
  unfold applyPush
  cases push k with
  | none => exact h
  | some p => exact coupled_setBusinessHours p.1 p.2 st h

theorem coupled_tryApiCheck (api : Nat → ApiOutcome)
    (push : Nat → Option (JSValue × Source)) :
    ∀ fuel ac now st, Coupled st →
      Coupled (tryApiCheck api push fuel ac now st).1 := by
  intro fuel
  induction fuel with
  | zero => intro ac now st h; exact h
  | succ f ih =>
    intro ac now st h
    have hp : Coupled (applyPush push (ac + 1) st) := coupled_applyPush push (ac + 1) st h
    simp only [tryApiCheck]
    split
    · split
      · split
        · exact coupled_setBusinessHours _ _ _ hp
        · split
          · exact ih _ _ _ (coupled_setBusinessHours _ _ _ hp)
          · exact coupled_setBusinessHours _ _ _ (coupled_setBusinessHours _ _ _ hp)
      · split
        · exact ih _ _ _ hp
        · exact coupled_setBusinessHours _ _ _ hp
    · exact hp

theorem sessionStatus_preserves_value (now : Nat) (d : SessionDetail)
    (st : ResolverState) :
    (onSessionStatusUpdate now d st).businessHoursValue = st.businessHoursValue := by
  obtain ⟨status, reason, rr, ai⟩ := d
  cases rr <;>
    simp [onSessionStatusUpdate, trackWaitingEpoch, handleSessionStatus,
      apply_ite ResolverState.businessHoursValue]

theorem sessionStatus_preserves_within (now : Nat) (d : SessionDetail)
    (st : ResolverState) :
    (onSessionStatusUpdate now d st).isWithinBusinessHours =
      st.isWithinBusinessHours := by
  obtain ⟨status, reason, rr, ai⟩ := d
  cases rr <;>
    simp [onSessionStatusUpdate, trackWaitingEpoch, handleSessionStatus,
      apply_ite ResolverState.isWithinBusinessHours]

theorem coupled_step (st : ResolverState) (e : Event) (h : Coupled st) :
    Coupled (step st e) := by
  cases e with
  | withinBusinessHours v => exact coupled_setBusinessHours v Source.event st h
  | hoursStarted => rfl
  | hoursEnded => rfl
  | messagingReady api push =>
    show Coupled (onMessagingReady api push st).1
    unfold onMessagingReady
    dsimp only
    split
    · exact coupled_tryApiCheck api push maxAttempts 0 _ _ h
    · exact h
  | sessionStatus now d =>
    show Coupled (onSessionStatusUpdate now d st)
    unfold Coupled
    rw [sessionStatus_preserves_value, sessionStatus_preserves_within]
    exact h

theorem coupled_runEvents (evs : List Event) : Coupled (runEvents evs) := by
  suffices h : ∀ st, Coupled st → Coupled (evs.foldl step st) from h _ rfl
  induction evs with
  | nil => intro st h; exact h
  | cons e tl ih => intro st h; exact ih _ (coupled_step st e h)

/-- Whatever the probe outcomes and the interleaved pushes, the recorded probe
invocations of a chain are an initial segment of its firing plan. -/
theorem tryApiCheck_calls_plan (api : Nat → ApiOutcome)
    (push : Nat → Option (JSValue × Source)) :
    ∀ fuel ac now st, ∃ n, n ≤ fuel ∧
      (tryApiCheck api push fuel ac now st).2 = (scheduleFrom fuel ac now).take n := by
  intro fuel
  induction fuel with
  | zero => intro ac now st; exact ⟨0, Nat.le_refl 0, rfl⟩
  | succ f ih =>
    intro ac now st
    simp only [tryApiCheck]
    split
    · split
      · next v heqapi =>
        split
        · exact ⟨1, by omega, by simp_all [scheduleFrom]⟩
        · split
          · obtain ⟨n, hn, heq⟩ := ih (ac + 1) (now + delays.getD (ac + 1) 0)
              ((setBusinessHours v Source.api (applyPush push (ac + 1) st)).2)
            exact ⟨n + 1, by omega, by simp_all [scheduleFrom]⟩
          · exact ⟨1, by omega, by simp_all [scheduleFrom]⟩
      · split
        · obtain ⟨n, hn, heq⟩ := ih (ac + 1) (now + delays.getD (ac + 1) 0)
            (applyPush push (ac + 1) st)
          exact ⟨n + 1, by omega, by simp_all [scheduleFrom]⟩
        · exact ⟨1, by omega, by simp_all [scheduleFrom]⟩
    · exact ⟨0, by omega, rfl⟩

/-- When no push ever arrives and every probe invocation throws or returns a
non-boolean, the chain performs its whole firing plan and ends by resolving
the fail-open default. -/
theorem tryApiCheck_all_fail (api : Nat → ApiOutcome)
    (push : Nat → Option (JSValue × Source))
    (h1 : ∀ k, (api k).isBooleanResult = false)
    (h2 : ∀ k, push k = none) :
    ∀ fuel ac now st, 1 ≤ fuel → fuel + ac = maxAttempts →
      st.businessHoursValue = none →
      tryApiCheck api push fuel ac now st =
        ({ st with businessHoursValue := some true,
                   businessHoursSource := some Source.default_fallback,
                   isWithinBusinessHours := true }, scheduleFrom fuel ac now) := by
  intro fuel
  induction fuel with
  | zero => intro ac now st hf; omega
  | succ f ih =>
    intro ac now st hf hsum hnone
    have hpush : applyPush push (ac + 1) st = st := by
      unfold applyPush; rw [h2]
    have hboo : (api (ac + 1)).isBooleanResult = false := h1 (ac + 1)
    simp only [tryApiCheck, hpush]
    rw [if_pos hnone]
    by_cases hlt : ac + 1 < maxAttempts
    · have hrec := ih (ac + 1) (now + delays.getD (ac + 1) 0) st (by omega)
        (by omega) hnone
      simp only [List.getD_eq_getElem?_getD] at hrec
      cases hapi : api (ac + 1) with
      | value v =>
        have hv : v.isBoolean = false := by
          rw [hapi] at hboo; exact hboo
        dsimp only
        rw [setBusinessHours_not_boolean v Source.api st hv]
        simp [if_pos hlt, hrec, hnone, scheduleFrom]
      | exn =>
        dsimp only
        simp [if_pos hlt, hrec, hnone, scheduleFrom]
    · have hac : ac = 4 := by unfold maxAttempts at hsum hlt; omega
      have hfz : f = 0 := by unfold maxAttempts at hsum hlt; omega
      subst hac; subst hfz
      cases hapi : api 5 with
      | value v =>
        have hv : v.isBoolean = false := by
          rw [hapi] at hboo; exact hboo
        dsimp only
        rw [setBusinessHours_not_boolean v Source.api st hv]
        simp [if_neg hlt, hnone, scheduleFrom, setBusinessHours]
      | exn =>
        dsimp only
        simp [if_neg hlt, hnone, scheduleFrom, setBusinessHours]

/-- Claim C1, counterexample.  The claim says that once the Resolver has
latched a first valid boolean, a later `generic-snapshot` Signal carrying a
different boolean leaves Resolved State unchanged.  It is false: after the
snapshot listener latches `true`, a second snapshot Signal carrying `false`
overwrites Resolved State with `false` — `setBusinessHours` has no latch
guard. -/
theorem latch_idempotence_counterexample :
    (onWithinBusinessHours (JSValue.bool true) initialResolverState).businessHoursValue
        = some true ∧
    (onWithinBusinessHours (JSValue.bool false)
        (onWithinBusinessHours (JSValue.bool true) initialResolverState)).businessHoursValue
        = some false := by
  decide

/-- Claim C1, amended.  Once Resolved State is latched, a later
`generic-snapshot` Signal leaves it unchanged exactly when its value is not a
strict boolean; a snapshot carrying a strict boolean overwrites the latched
value, source and mirror flag (the Resolver applies no source-based latch;
only the Probe Scheduler stops consulting the probe once the state is set). -/
theorem latch_overwrite_amended (st : ResolverState) (b0 : Bool) (v : JSValue)
    (h : st.businessHoursValue = some b0) :
    (v.isBoolean = false → onWithinBusinessHours v st = st) ∧
    (∀ b, v = JSValue.bool b →
      onWithinBusinessHours v st =
        { st with businessHoursValue := some b,
                  businessHoursSource := some Source.event,
                  isWithinBusinessHours := b }) := by
  constructor
  · intro hv
    unfold onWithinBusinessHours
    rw [setBusinessHours_not_boolean v Source.event st hv]
  · rintro b rfl
    rfl

/-- Claim C1, witness for the amended theorem at a concrete latched state and
a concrete later snapshot. -/
theorem latch_overwrite_amended_witness :
    ((onWithinBusinessHours (JSValue.bool true) initialResolverState).businessHoursValue
        = some true) ∧
    (((JSValue.bool false).isBoolean = false →
        onWithinBusinessHours (JSValue.bool false)
          (onWithinBusinessHours (JSValue.bool true) initialResolverState) =
        onWithinBusinessHours (JSValue.bool true) initialResolverState) ∧
     (∀ b, JSValue.bool false = JSValue.bool b →
        onWithinBusinessHours (JSValue.bool false)
          (onWithinBusinessHours (JSValue.bool true) initialResolverState) =
        { onWithinBusinessHours (JSValue.bool true) initialResolverState with
            businessHoursValue := some b,
            businessHoursSource := some Source.event,
            isWithinBusinessHours := b })) :=
  ⟨by decide,
   latch_overwrite_amended (onWithinBusinessHours (JSValue.bool true) initialResolverState)
     true (JSValue.bool false) (by decide)⟩

/-- Claim C2.  In every reachable state whose Resolved State is set to `b`,
the UI Reconciler requests the chat affordance exactly when
`b && !noAgentsAvailable` and requests the offline affordance exactly
otherwise — one affordance is shown and the other hidden, never both. -/
theorem mutual_exclusivity (evs : List Event) (b : Bool)
    (h : (runEvents evs).businessHoursValue = some b) :
    (renderOf (runEvents evs)).chatShown = (b && !(runEvents evs).noAgentsAvailable) ∧
    (renderOf (runEvents evs)).offlineShown = !(renderOf (runEvents evs)).chatShown := by
  have hc := coupled_runEvents evs
  unfold Coupled at hc
  rw [h, Option.getD_some] at hc
  unfold renderOf updateChatAvailability
  rw [hc]
  cases hb : b && !(runEvents evs).noAgentsAvailable <;> simp [hb]

/-- Claim C2, witness: after a `period-started` Signal the reachable state is
resolved `true` and the render shows the chat affordance only. -/
theorem mutual_exclusivity_witness :
    ((runEvents [Event.hoursStarted]).businessHoursValue = some true) ∧
    ((renderOf (runEvents [Event.hoursStarted])).chatShown =
        (true && !(runEvents [Event.hoursStarted]).noAgentsAvailable) ∧
     (renderOf (runEvents [Event.hoursStarted])).offlineShown =
        !(renderOf (runEvents [Event.hoursStarted])).chatShown) :=
  ⟨by decide, mutual_exclusivity [Event.hoursStarted] true (by decide)⟩

/-- Claim C3.  For every probe oracle and every interleaving of push Signals,
the external probe capability is invoked at most 5 times, the invocations
follow the cumulative schedule 1000, 3000, 6000, 10000, 15000 ms from
scheduler start (the calls are an initial segment of `probeSchedule`), each
invocation happens while Resolved State is still unset
(`resolvedAtCall = none` throughout the schedule), and when Resolved State is
already set at scheduler start there is no invocation at all. -/
theorem bounded_probing (api : Nat → ApiOutcome)
    (push : Nat → Option (JSValue × Source)) (st : ResolverState) :
    ∃ n, n ≤ (if st.businessHoursValue = none then 5 else 0) ∧
      (onMessagingReady api push st).2 = probeSchedule.take n := by
  unfold onMessagingReady
  dsimp only
  by_cases h : st.businessHoursValue = none
  · rw [if_pos h,
      if_pos (show ({ st with noAgentsAvailable := false } :
        ResolverState).businessHoursValue = none from h)]
    obtain ⟨n, hn, heq⟩ :=
      tryApiCheck_calls_plan api push maxAttempts 0 (delays.getD 0 0)
        { st with noAgentsAvailable := false }
    refine ⟨n, ?_, ?_⟩
    · unfold maxAttempts at hn; omega
    · rw [heq]
      rfl
  · rw [if_neg h,
      if_neg (show ¬({ st with noAgentsAvailable := false } :
        ResolverState).businessHoursValue = none from h)]
    exact ⟨0, Nat.le_refl 0, rfl⟩

/-- Claim C4.  A probe attempt that throws or returns a non-boolean is merely
counted as failed and the next attempt is scheduled (the chain returns
normally — no error is raised); if every attempt fails this way and no push
Signal arrives, the scheduler performs all five firings (the last at 15000 ms,
so resolution happens at/after 15 s) and resolves Resolved State to
`{available: true, source: fallback-default}`. -/
theorem fail_open_default (api : Nat → ApiOutcome)
    (push : Nat → Option (JSValue × Source)) (st : ResolverState)
    (h1 : ∀ k, (api k).isBooleanResult = false)
    (h2 : ∀ k, push k = none)
    (h3 : st.businessHoursValue = none) :
    onMessagingReady api push st =
      ({ st with noAgentsAvailable := false,
                 businessHoursValue := some true,
                 businessHoursSource := some Source.default_fallback,
                 isWithinBusinessHours := true }, probeSchedule) := by
  unfold onMessagingReady
  dsimp only
  rw [if_pos (show ({ st with noAgentsAvailable := false } :
    ResolverState).businessHoursValue = none from h3)]
  rw [tryApiCheck_all_fail api push h1 h2 maxAttempts 0 (delays.getD 0 0)
    { st with noAgentsAvailable := false } (by decide) (by decide) h3]
  rfl

/-- Claim C4, witness: a probe that always returns `undefined` and no push
Signal, from the initial state. -/
theorem fail_open_default_witness :
    (∀ k, ((fun _ : Nat => ApiOutcome.value JSValue.undef) k).isBooleanResult = false) ∧
    (∀ k, (fun _ : Nat => (none : Option (JSValue × Source))) k = none) ∧
    initialResolverState.businessHoursValue = none ∧
    onMessagingReady (fun _ => ApiOutcome.value JSValue.undef) (fun _ => none)
        initialResolverState =
      ({ initialResolverState with
          noAgentsAvailable := false,
          businessHoursValue := some true,
          businessHoursSource := some Source.default_fallback,
          isWithinBusinessHours := true }, probeSchedule) :=
  ⟨fun _ => rfl, fun _ => rfl, rfl,
   fail_open_default (fun _ => ApiOutcome.value JSValue.undef) (fun _ => none)
     initialResolverState (fun _ => rfl) (fun _ => rfl) rfl⟩

/-- Claim C5.  For every Signal value that is not a strict boolean the
Resolver's accept operation is a pure no-op: it returns `false` (not an
error — the function is total, nothing is thrown) and leaves the whole state
unchanged. -/
theorem nonboolean_signal_ignored (v : JSValue) (src : Source)
    (st : ResolverState) (h : v.isBoolean = false) :
    setBusinessHours v src st = (false, st) := by
  cases v <;> first | rfl | simp [JSValue.isBoolean] at h

/-- Claim C5, witness: the `undefined` value frequently delivered by the push
channel is ignored. -/
theorem nonboolean_signal_ignored_witness :
    JSValue.undef.isBoolean = false ∧
    setBusinessHours JSValue.undef Source.event initialResolverState =
      (false, initialResolverState) :=
  ⟨by decide,
   nonboolean_signal_ignored JSValue.undef Source.event initialResolverState (by decide)⟩

/-- Claim C6.  A `period-started` (resp. `period-ended`) Signal overwrites
Resolved State to available `true` (resp. `false`) from every state whatsoever
— latched or not, and regardless of the prior source. -/
theorem transition_override (st : ResolverState) :
    onBusinessHoursStarted st =
      { st with businessHoursValue := some true,
                businessHoursSource := some Source.hours_started_event,
                isWithinBusinessHours := true } ∧
    onBusinessHoursEnded st =
      { st with businessHoursValue := some false,
                businessHoursSource := some Source.hours_ended_event,
                isWithinBusinessHours := false } :=
  ⟨rfl, rfl⟩

/-- Claim C7, counterexample.  The claim says that while Resolved State is
unset neither affordance is rendered and the chat affordance in particular is
never shown before the first resolution.  It is false: in the initial state
Resolved State is unset, yet the `onEmbeddedMessagingButtonCreated` listener
immediately renders the chat affordance (the default
`isWithinBusinessHours = true` is fail-open). -/
theorem pending_before_resolution_counterexample :
    initialResolverState.businessHoursValue = none ∧
    onButtonCreated initialResolverState =
      { chatShown := true, offlineShown := false } := by
  decide

/-- Claim C7, amended.  While Resolved State is unset the mirror flag still
holds its fail-open default `true`, so the button-created render shows the
chat affordance whenever the Demotion Flag is clear and the offline affordance
when it is set — the UI is never left with neither affordance pending a
resolution. -/
theorem default_render_before_resolution (evs : List Event)
    (h : (runEvents evs).businessHoursValue = none) :
    (runEvents evs).isWithinBusinessHours = true ∧
    onButtonCreated (runEvents evs) =
      { chatShown := !(runEvents evs).noAgentsAvailable,
        offlineShown := (runEvents evs).noAgentsAvailable } := by
  have hc := coupled_runEvents evs
  unfold Coupled at hc
  rw [h, Option.getD_none] at hc
  refine ⟨hc, ?_⟩
  unfold onButtonCreated renderOf updateChatAvailability
  rw [hc]
  cases hn : (runEvents evs).noAgentsAvailable <;> simp [hn]

/-- Claim C7, witness for the amended theorem: the empty run. -/
theorem default_render_before_resolution_witness :
    (runEvents []).businessHoursValue = none ∧
    ((runEvents []).isWithinBusinessHours = true ∧
     onButtonCreated (runEvents []) =
       { chatShown := !(runEvents []).noAgentsAvailable,
         offlineShown := (runEvents []).noAgentsAvailable }) :=
  ⟨by decide, default_render_before_resolution [] (by decide)⟩

/-- Claim C8.  When a session-status Signal with status `"Waiting"` is
processed more than 60000 ms after the recorded waiting-epoch start — the
spec scenario holds `Waiting` for 61 s after a launch with Resolved State
`true` — the Reactive Failure Monitor sets the Demotion Flag and the next
render shows the offline affordance only. -/
theorem waiting_timeout_demotes (now t0 : Nat) (d : SessionDetail)
    (st : ResolverState)
    (hres : st.businessHoursValue = some true)
    (hstart : st.sessionWaitingStartTime = some t0)
    (hstat : d.status = "Waiting")
    (hwait : now - t0 > 60000) :
    (onSessionStatusUpdate now d st).noAgentsAvailable = true ∧
    renderOf (onSessionStatusUpdate now d st) =
      { chatShown := false, offlineShown := true } := by
  obtain ⟨status, reason, rr, ai⟩ := d
  dsimp only at hstat
  subst hstat
  cases rr <;>
    simp [onSessionStatusUpdate, trackWaitingEpoch, handleSessionStatus,
      renderOf, updateChatAvailability, hstart, hwait]

/-- Claim C8, witness: `Waiting` observed at 61000 ms after an epoch that
started at 0, in a state resolved `true`. -/
theorem waiting_timeout_demotes_witness :
    (({ businessHoursValue := some true, businessHoursSource := some Source.event,
        isWithinBusinessHours := true, noAgentsAvailable := false,
        sessionWaitingStartTime := some 0 } : ResolverState).businessHoursValue
          = some true) ∧
    (({ businessHoursValue := some true, businessHoursSource := some Source.event,
        isWithinBusinessHours := true, noAgentsAvailable := false,
        sessionWaitingStartTime := some 0 } : ResolverState).sessionWaitingStartTime
          = some 0) ∧
    (({ status := "Waiting", reason := none, routingResult := none,
        agentInfo := none } : SessionDetail).status = "Waiting") ∧
    (61000 - 0 > 60000) ∧
    ((onSessionStatusUpdate 61000
        { status := "Waiting", reason := none, routingResult := none, agentInfo := none }
        { businessHoursValue := some true, businessHoursSource := some Source.event,
          isWithinBusinessHours := true, noAgentsAvailable := false,
          sessionWaitingStartTime := some 0 }).noAgentsAvailable = true ∧
     renderOf (onSessionStatusUpdate 61000
        { status := "Waiting", reason := none, routingResult := none, agentInfo := none }
        { businessHoursValue := some true, businessHoursSource := some Source.event,
          isWithinBusinessHours := true, noAgentsAvailable := false,
          sessionWaitingStartTime := some 0 }) =
       { chatShown := false, offlineShown := true }) :=
  ⟨rfl, rfl, rfl, by decide,
   waiting_timeout_demotes 61000 0
     { status := "Waiting", reason := none, routingResult := none, agentInfo := none }
     { businessHoursValue := some true, businessHoursSource := some Source.event,
       isWithinBusinessHours := true, noAgentsAvailable := false,
       sessionWaitingStartTime := some 0 } rfl rfl rfl (by decide)⟩

/-- Claim C9.  The affordance-toggle wrapper never lets an exception escape
its call site: for every host environment `showChatButton` returns normally —
when the widget button element does not yet exist (the guard on
`embeddedservice_bootstrap.utilAPI` fails) the toggle is skipped with a
warning and nothing is thrown, so the reconciler cannot crash, and a later
re-render in an environment where the button has been created performs the
toggle. -/
theorem render_failure_no_crash (env : HostEnv) :
    showChatButton env =
      Except.ok (if env.bootstrapDefined && env.buttonCreated then
        ShowChatResult.shown else ShowChatResult.warned) := by
  obtain ⟨bd, bc⟩ := env
  cases bd <;> cases bc <;> rfl

/-- Claim C10.  Every session-status Signal whose status is `"Active"` clears
the Demotion Flag — the handler's `Active` branch tests only the status, so no
`agentInfo` needs to be present in the Signal. -/
theorem active_clears_demotion (now : Nat) (d : SessionDetail)
    (st : ResolverState) (hstat : d.status = "Active") :
    (onSessionStatusUpdate now d st).noAgentsAvailable = false := by
  obtain ⟨status, reason, rr, ai⟩ := d
  dsimp only at hstat
  subst hstat
  cases rr <;>
    simp [onSessionStatusUpdate, trackWaitingEpoch, handleSessionStatus,
      apply_ite ResolverState.noAgentsAvailable]

/-- Claim C10, witness: an `Active` Signal with no `agentInfo` clears a set
Demotion Flag. -/
theorem active_clears_demotion_witness :
    (({ status := "Active", reason := none, routingResult := none,
        agentInfo := none } : SessionDetail).status = "Active") ∧
    (onSessionStatusUpdate 0
        { status := "Active", reason := none, routingResult := none, agentInfo := none }
        { businessHoursValue := some true, businessHoursSource := some Source.event,
          isWithinBusinessHours := true, noAgentsAvailable := true,
          sessionWaitingStartTime := none }).noAgentsAvailable = false :=
  ⟨rfl,
   active_clears_demotion 0
     { status := "Active", reason := none, routingResult := none, agentInfo := none }
     { businessHoursValue := some true, businessHoursSource := some Source.event,
       isWithinBusinessHours := true, noAgentsAvailable := true,
       sessionWaitingStartTime := none } rfl⟩

end EnhancedChat
